import Mathlib

/-!
Shallow embedding of the crop-classification pipeline of this repository:
the `CropClassificationModel` (feature extraction, prediction, confidence
tiers) and the export formatters (CSV, GeoJSON, HTML report) with their
request handler.  JavaScript numbers are modelled as rationals;
`parseFloat(x.toFixed(3))` is modelled as rounding to 3 decimals; each
`Math.random()` call is an explicit rational draw parameter in `[0,1)`.
-/

namespace Classify

/-- `parseFloat(x.toFixed(3))`: round to 3 decimal places (half away from
zero in JS; for the positive values used here this is round-half-up, which
matches Mathlib's `round`). -/
def round3 (q : ℚ) : ℚ := (round (1000 * q) : ℤ) / 1000

/-- The closed set of class labels: `'Palmier à huile'`, `'Cacao'`, `'Forêt'`. -/
inductive CropClass
  | palmier
  | cacao
  | foret
deriving DecidableEq, Repr

/-- The class-name strings used by the source. -/
def className : CropClass → String
  | .palmier => "Palmier à huile"
  | .cacao => "Cacao"
  | .foret => "Forêt"

/-- One row of `this.confidenceLevels`. -/
structure ConfidenceTier where
  level : ℕ
  threshold : ℚ
  label : String
  action : String
deriving DecidableEq, Repr

/-- The `confidenceLevels` table, in source order (descending thresholds). -/
def confidenceLevels : List ConfidenceTier :=
  [ ⟨5, 0.8, "Très haute confiance", "Utilisation automatique recommandée"⟩
  , ⟨4, 0.6, "Confiance élevée", "Cartographie automatique avec vérifications"⟩
  , ⟨3, 0.4, "Confiance moyenne", "Vérification visuelle recommandée"⟩
  , ⟨2, 0.2, "Faible confiance", "Vérification sur le terrain nécessaire"⟩
  , ⟨1, 0.0, "Très faible confiance", "Analyse approfondie requise"⟩ ]

/-- `confidenceLevels.find(level => confidence >= level.threshold) ||
confidenceLevels[confidenceLevels.length - 1]`. -/
def classifyConfidence (c : ℚ) : ConfidenceTier :=
  (confidenceLevels.find? fun t => decide (t.threshold ≤ c)).getD
    (confidenceLevels.getLastD ⟨1, 0.0, "Très faible confiance", "Analyse approfondie requise"⟩)

/-- The feature record produced by `extractFeatures`. -/
structure FeatureVector where
  ndvi : ℚ
  evi : ℚ
  savi : ℚ
  mean_red : ℚ
  mean_nir : ℚ
  std_red : ℚ
  std_nir : ℚ
  area_ha : ℚ
deriving DecidableEq, Repr

/-- `calculateNDVI`: `0.65 + (Math.random() * 0.3)`, with the random draw
`r` made explicit. -/
def calculateNDVI (r : ℚ) : ℚ := 0.65 + r * 0.3

/-- The six `Math.random()` draws consumed by `extractFeatures`. -/
structure ExtractDraws where
  rNdvi : ℚ
  rRed : ℚ
  rNir : ℚ
  rStdRed : ℚ
  rStdNir : ℚ
  rArea : ℚ

/-- `extractFeatures`: NDVI from `calculateNDVI`, EVI and SAVI scaled from
the same raw NDVI value (before its own rounding), each then rounded to 3
decimals; the remaining features are fresh random draws, unrounded. -/
def extractFeatures (d : ExtractDraws) : FeatureVector :=
  let ndvi := calculateNDVI d.rNdvi
  { ndvi := round3 ndvi
    evi := round3 (ndvi * 1.2)
    savi := round3 (ndvi * 0.9)
    mean_red := d.rRed * 0.3 + 0.1
    mean_nir := d.rNir * 0.4 + 0.6
    std_red := d.rStdRed * 0.05 + 0.02
    std_nir := d.rStdNir * 0.08 + 0.03
    area_ha := d.rArea * 5 + 0.5 }

/-- The four `Math.random()` draws consumed by `predict`: one for the
confidence band, one per class for the non-winning probability entries. -/
structure PredictDraws where
  rc : ℚ
  rPalm : ℚ
  rCacao : ℚ
  rForet : ℚ

/-- The label branch of `predict`: the three-branch NDVI decision policy. -/
def predictedClass (f : FeatureVector) : CropClass :=
  if f.ndvi > 0.8 then
    if f.evi > 0.9 then .foret else .palmier
  else if f.ndvi > 0.6 then
    if f.savi > 0.7 then .palmier else .cacao
  else .cacao

/-- The confidence branch of `predict`, before rounding: the same branch
structure, each arm an affine function of the confidence draw `rc`. -/
def rawConfidence (f : FeatureVector) (rc : ℚ) : ℚ :=
  if f.ndvi > 0.8 then
    if f.evi > 0.9 then 0.85 + rc * 0.1 else 0.75 + rc * 0.15
  else if f.ndvi > 0.6 then
    if f.savi > 0.7 then 0.70 + rc * 0.2 else 0.65 + rc * 0.25
  else 0.45 + rc * 0.3

/-- The object returned by `predict`. -/
structure PredictionOutcome where
  predicted_class : CropClass
  confidence : ℚ
  confidence_level : ℕ
  confidence_label : String
  recommended_action : String
  probabilities : CropClass → ℚ

/-- `predict`: branch on the features for label and raw confidence, resolve
the tier from the raw (unrounded) confidence, round the reported confidence
to 3 decimals, and fill `probabilities` with the raw confidence for the
winning class and `random * (1 - confidence)` for each other class. -/
def predict (f : FeatureVector) (d : PredictDraws) : PredictionOutcome :=
  let c := predictedClass f
  let conf := rawConfidence f d.rc
  let tier := classifyConfidence conf
  { predicted_class := c
    confidence := round3 conf
    confidence_level := tier.level
    confidence_label := tier.label
    recommended_action := tier.action
    probabilities := fun cls =>
      if cls = c then conf
      else (match cls with
            | .palmier => d.rPalm
            | .cacao => d.rCacao
            | .foret => d.rForet) * (1 - conf) }

/-- Optional request coordinates `{lat, lng}`. -/
structure Coordinates where
  lat : ℚ
  lng : ℚ
deriving DecidableEq, Repr

/-- The `metadata` object attached by `classify`. -/
structure ResultMetadata where
  model_version : String
  processing_time : ℚ
  timestamp : String
deriving DecidableEq, Repr

/-- One classification result record as consumed by the export formatters:
`features`, `prediction`, optional `coordinates`, `metadata`. -/
structure ClassificationResult where
  features : FeatureVector
  prediction : PredictionOutcome
  coordinates : Option Coordinates
  metadata : ResultMetadata

/-- The fixed CSV header row (12 columns). -/
def csvHeaders : List String :=
  [ "ID", "Culture_Predite", "Confiance", "Niveau_Confiance", "Action_Recommandee"
  , "NDVI", "EVI", "SAVI", "Surface_Ha", "Latitude", "Longitude", "Timestamp" ]

/-- Template-literal double quoting: `` `"${s}"` ``. -/
def quoteField (s : String) : String := "\"" ++ s ++ "\""

/-- `result.coordinates?.lat || ''` — empty when coordinates are absent
(and, by JS falsiness, also when the value is 0). -/
def coordFieldStr (q : Option ℚ) : String :=
  match q with
  | none => ""
  | some v => if v = 0 then "" else toString v

/-- One CSV data row for result `r` at 0-based index `i` (ID is `i + 1`). -/
def csvRow (i : ℕ) (r : ClassificationResult) : List String :=
  [ toString (i + 1)
  , quoteField (className r.prediction.predicted_class)
  , toString r.prediction.confidence
  , toString r.prediction.confidence_level
  , quoteField r.prediction.recommended_action
  , toString r.features.ndvi
  , toString r.features.evi
  , toString r.features.savi
  , toString r.features.area_ha
  , coordFieldStr (r.coordinates.map Coordinates.lat)
  , coordFieldStr (r.coordinates.map Coordinates.lng)
  , r.metadata.timestamp ]

/-- The rows of the CSV: header first, then one row per result. -/
def csvRows (results : List ClassificationResult) : List (List String) :=
  csvHeaders :: results.mapIdx csvRow

/-- `generateCSV`: each row comma-joined and newline-terminated. -/
def generateCSV (results : List ClassificationResult) : String :=
  String.join ((csvRows results).map fun row => String.intercalate "," row ++ "\n")

/-- The `properties` object of a GeoJSON feature. -/
structure GeoProperties where
  id : ℕ
  culture_predite : String
  confiance : ℚ
  niveau_confiance : ℕ
  action_recommandee : String
  ndvi : ℚ
  evi : ℚ
  savi : ℚ
  surface_ha : ℚ
  timestamp : String

/-- A GeoJSON geometry object. -/
structure Geometry where
  type : String
  coordinates : List ℚ

/-- A GeoJSON feature. -/
structure Feature where
  type : String
  properties : GeoProperties
  geometry : Geometry

/-- A GeoJSON feature collection. -/
structure FeatureCollection where
  type : String
  features : List Feature

/-- `result.coordinates?.lng || 0` (absent, and by JS falsiness a stored 0,
both yield 0). -/
def coordOrZero (q : Option ℚ) : ℚ :=
  match q with
  | none => 0
  | some v => if v = 0 then 0 else v

/-- One GeoJSON feature for result `r` at 0-based index `i`. -/
def geoFeature (i : ℕ) (r : ClassificationResult) : Feature :=
  { type := "Feature"
    properties :=
      { id := i + 1
        culture_predite := className r.prediction.predicted_class
        confiance := r.prediction.confidence
        niveau_confiance := r.prediction.confidence_level
        action_recommandee := r.prediction.recommended_action
        ndvi := r.features.ndvi
        evi := r.features.evi
        savi := r.features.savi
        surface_ha := r.features.area_ha
        timestamp := r.metadata.timestamp }
    geometry :=
      { type := "Point"
        coordinates :=
          [ coordOrZero (r.coordinates.map Coordinates.lng)
          , coordOrZero (r.coordinates.map Coordinates.lat) ] } }

/-- `generateGeoJSON`: a FeatureCollection with one feature per result. -/
def generateGeoJSON (results : List ClassificationResult) : FeatureCollection :=
  { type := "FeatureCollection"
    features := results.mapIdx geoFeature }

/-- JSON string literal. -/
def jsonStr (s : String) : String := "\"" ++ s ++ "\""

/-- JSON text of a geometry object. -/
def geometryJSON (g : Geometry) : String :=
  "\x7b\"type\":" ++ jsonStr g.type ++ ",\"coordinates\":["
    ++ String.intercalate "," (g.coordinates.map toString) ++ "]\x7d"

/-- JSON text of a properties object. -/
def propertiesJSON (p : GeoProperties) : String :=
  "\x7b\"id\":" ++ toString p.id
    ++ ",\"culture_predite\":" ++ jsonStr p.culture_predite
    ++ ",\"confiance\":" ++ toString p.confiance
    ++ ",\"niveau_confiance\":" ++ toString p.niveau_confiance
    ++ ",\"action_recommandee\":" ++ jsonStr p.action_recommandee
    ++ ",\"ndvi\":" ++ toString p.ndvi
    ++ ",\"evi\":" ++ toString p.evi
    ++ ",\"savi\":" ++ toString p.savi
    ++ ",\"surface_ha\":" ++ toString p.surface_ha
    ++ ",\"timestamp\":" ++ jsonStr p.timestamp ++ "\x7d"

/-- JSON text of a feature. -/
def featureJSON (f : Feature) : String :=
  "\x7b\"type\":" ++ jsonStr f.type
    ++ ",\"properties\":" ++ propertiesJSON f.properties
    ++ ",\"geometry\":" ++ geometryJSON f.geometry ++ "\x7d"

/-- `JSON.stringify` of a feature collection. -/
def featureCollectionJSON (fc : FeatureCollection) : String :=
  "\x7b\"type\":" ++ jsonStr fc.type
    ++ ",\"features\":[" ++ String.intercalate "," (fc.features.map featureJSON) ++ "]\x7d"

/-- `cultureStats[culture]` of `generatePDFReport`: per-class result count. -/
def cultureCount (results : List ClassificationResult) (c : CropClass) : ℕ :=
  (results.filter fun r => decide (r.prediction.predicted_class = c)).length

/-- `Object.keys(cultureStats)`: the distinct predicted classes, in first
appearance order. -/
def distinctCultures (results : List ClassificationResult) : List CropClass :=
  (results.map fun r => r.prediction.predicted_class).dedup

/-- One `<tr>` of the report table, including the confidence colour band
(`> 0.7` high, `> 0.4` medium, else low). -/
def pdfRow (i : ℕ) (r : ClassificationResult) : String :=
  "<tr><td>" ++ toString (i + 1)
    ++ "</td><td>" ++ className r.prediction.predicted_class
    ++ "</td><td class=\""
    ++ (if r.prediction.confidence > 0.7 then "confidence-high"
        else if r.prediction.confidence > 0.4 then "confidence-medium"
        else "confidence-low")
    ++ "\">" ++ toString (r.prediction.confidence * 100)
    ++ "%</td><td>" ++ toString r.prediction.confidence_level
    ++ "</td><td>" ++ toString r.features.ndvi
    ++ "</td><td>" ++ toString r.features.area_ha
    ++ "</td><td>" ++ r.prediction.recommended_action
    ++ "</td></tr>"

/-- `generatePDFReport`: the HTML report. The summary statistics and the
per-result table follow the source; the static CSS and boilerplate markup
of the template literal are condensed to their structural tags. -/
def generatePDFReport (results : List ClassificationResult) : String :=
  let totalResults := results.length
  let avgConfidence := (results.map fun r => r.prediction.confidence).sum / totalResults
  "<html><head><title>Rapport de Classification des Cultures Agricoles</title></head><body>"
    ++ "<h3>Total Analysé</h3><p>" ++ toString totalResults ++ "</p>"
    ++ "<h3>Confiance Moyenne</h3><p>" ++ toString (avgConfidence * 100) ++ "%</p>"
    ++ "<h3>Cultures Détectées</h3><p>" ++ toString (distinctCultures results).length ++ "</p>"
    ++ "<ul>"
    ++ String.join ((distinctCultures results).map fun c =>
         "<li><strong>" ++ className c ++ ":</strong> " ++ toString (cultureCount results c)
           ++ " (" ++ toString ((cultureCount results c : ℚ) / totalResults * 100) ++ "%)</li>")
    ++ "</ul><table><tbody>"
    ++ String.join (results.mapIdx pdfRow)
    ++ "</tbody></table></body></html>"

/-- The two failure modes of the export handler (both HTTP 400 in source):
missing/empty results and an unsupported format. -/
inductive ExportError
  | EmptyInputError
  | UnsupportedFormatError (allowed : List String)
deriving DecidableEq, Repr

/-- A successful export: filename, body, content type. -/
structure Artifact where
  filename : String
  content : String
  contentType : String
deriving DecidableEq, Repr

/-- The export request handler: reject an empty result list, then dispatch
on the format (`csv`, `geojson`, `pdf`), rejecting any other format with
the allowed list; `ts` stands for the request-time timestamp used in the
filename. -/
def exportHandler (format : String) (results : List ClassificationResult)
    (ts : String) : Except ExportError Artifact :=
  if results.isEmpty then
    .error .EmptyInputError
  else if format = "csv" then
    .ok ⟨"classification_results_" ++ ts ++ ".csv", generateCSV results, "text/csv"⟩
  else if format = "geojson" then
    .ok ⟨"classification_results_" ++ ts ++ ".geojson",
         featureCollectionJSON (generateGeoJSON results), "application/geo+json"⟩
  else if format = "pdf" then
    .ok ⟨"rapport_classification_" ++ ts ++ ".html", generatePDFReport results, "text/html"⟩
  else
    .error (.UnsupportedFormatError ["csv", "geojson", "pdf"])

/-- A concrete prediction outcome obtained by running `predict` on a fixed
feature vector and fixed draws; used to build concrete result records. -/
def samplePrediction : PredictionOutcome :=
  predict ⟨0.85, 0.95, 0.8, 0.2, 0.7, 0.03, 0.05, 2⟩ ⟨1/2, 0, 0, 0⟩

/-- A concrete classification result without coordinates. -/
def sampleResult : ClassificationResult :=
  { features := ⟨0.85, 0.95, 0.8, 0.2, 0.7, 0.03, 0.05, 2⟩
    prediction := samplePrediction
    coordinates := none
    metadata := ⟨"1.0.0", 1.5, "2024-01-01T00:00:00.000Z"⟩ }

/-- A concrete classification result with coordinates. -/
def sampleResultWithCoords : ClassificationResult :=
  { features := ⟨0.85, 0.95, 0.8, 0.2, 0.7, 0.03, 0.05, 2⟩
    prediction := samplePrediction
    coordinates := some ⟨5.35, -4.02⟩
    metadata := ⟨"1.0.0", 1.5, "2024-01-01T00:00:00.000Z"⟩ }

theorem round3_mono {a b : ℚ} (h : a ≤ b) : round3 a ≤ round3 b := by
  unfold round3
  have hr : round (1000 * a) ≤ round (1000 * b) := by
    rw [round_eq, round_eq]
    exact Int.floor_le_floor (by linarith)
  exact (div_le_div_iff_of_pos_right (by norm_num)).2 (by exact_mod_cast hr)

theorem round3_thousandth (k : ℤ) : round3 ((k : ℚ) / 1000) = (k : ℚ) / 1000 := by
  unfold round3
  have h : (1000 : ℚ) * ((k : ℚ) / 1000) = (k : ℚ) := by field_simp
  rw [h, round_intCast]

theorem round3_fixed {x : ℚ} (k : ℤ) (h : (k : ℚ) / 1000 = x) : round3 x = x :=
  h ▸ round3_thousandth k

theorem le_round3_of_le {lo c : ℚ} (h : lo ≤ c) (hfix : round3 lo = lo) :
    lo ≤ round3 c := by
  calc lo = round3 lo := hfix.symm
    _ ≤ round3 c := round3_mono h

theorem round3_le_of_le {c hi : ℚ} (h : c ≤ hi) (hfix : round3 hi = hi) :
    round3 c ≤ hi := by
  calc round3 c ≤ round3 hi := round3_mono h
    _ = hi := hfix

theorem sub_le_round3 (q : ℚ) : q - 1 / 2000 ≤ round3 q := by
  have h := abs_sub_round (1000 * q)
  rw [abs_le] at h
  unfold round3
  rw [le_div_iff₀ (by norm_num : (0 : ℚ) < 1000)]
  have h2 := h.2
  linarith

theorem round3_le_add (q : ℚ) : round3 q ≤ q + 1 / 2000 := by
  have h := abs_sub_round (1000 * q)
  rw [abs_le] at h
  unfold round3
  rw [div_le_iff₀ (by norm_num : (0 : ℚ) < 1000)]
  have h1 := h.1
  linarith

theorem round3_gt_of_gt {c b : ℚ} (k : ℤ) (hb : (k : ℚ) / 1000 = b)
    (h : round3 c > b) : round3 c ≥ b + 1 / 1000 := by
  unfold round3 at h ⊢
  rw [← hb] at h ⊢
  have hk : (k : ℤ) < round (1000 * c) := by
    by_contra hle
    push_neg at hle
    exact absurd ((div_le_div_iff_of_pos_right (by norm_num : (0:ℚ) < 1000)).2
      (by exact_mod_cast hle)) (not_le.2 h)
  have : (k + 1 : ℤ) ≤ round (1000 * c) := hk
  rw [ge_iff_le, div_add_div_same, le_div_iff₀ (by norm_num : (0 : ℚ) < 1000)]
  have : ((k + 1 : ℤ) : ℚ) ≤ (round (1000 * c) : ℚ) := by exact_mod_cast this
  push_cast at this
  rw [div_mul_cancel₀]
  · linarith
  · norm_num

theorem classifyConfidence_eq_tier5 {c : ℚ} (h : 0.8 ≤ c) :
    classifyConfidence c =
      ⟨5, 0.8, "Très haute confiance", "Utilisation automatique recommandée"⟩ := by
  unfold classifyConfidence confidenceLevels
  simp [List.find?, h]

theorem classifyConfidence_eq_tier4 {c : ℚ} (h1 : 0.6 ≤ c) (h2 : c < 0.8) :
    classifyConfidence c =
      ⟨4, 0.6, "Confiance élevée", "Cartographie automatique avec vérifications"⟩ := by
  unfold classifyConfidence confidenceLevels
  simp [List.find?, h1, not_le.2 h2]

theorem classifyConfidence_eq_tier3 {c : ℚ} (h1 : 0.4 ≤ c) (h2 : c < 0.6) :
    classifyConfidence c =
      ⟨3, 0.4, "Confiance moyenne", "Vérification visuelle recommandée"⟩ := by
  unfold classifyConfidence confidenceLevels
  simp [List.find?, h1, not_le.2 h2, not_le.2 (h2.trans (by norm_num : (0.6:ℚ) < 0.8))]

theorem classifyConfidence_eq_tier2 {c : ℚ} (h1 : 0.2 ≤ c) (h2 : c < 0.4) :
    classifyConfidence c =
      ⟨2, 0.2, "Faible confiance", "Vérification sur le terrain nécessaire"⟩ := by
  unfold classifyConfidence confidenceLevels
  simp [List.find?, h1, not_le.2 h2,
    not_le.2 (h2.trans (by norm_num : (0.4:ℚ) < 0.6)),
    not_le.2 (h2.trans (by norm_num : (0.4:ℚ) < 0.8))]

theorem classifyConfidence_eq_tier1 {c : ℚ} (h2 : c < 0.2) :
    classifyConfidence c =
      ⟨1, 0.0, "Très faible confiance", "Analyse approfondie requise"⟩ := by
  unfold classifyConfidence confidenceLevels
  rcases le_or_lt (0.0 : ℚ) c with h0 | h0
  · simp [List.find?, h0, not_le.2 h2, not_le.2 (h2.trans (by norm_num : (0.2:ℚ) < 0.4)),
      not_le.2 (h2.trans (by norm_num : (0.2:ℚ) < 0.6)),
      not_le.2 (h2.trans (by norm_num : (0.2:ℚ) < 0.8))]
  · simp [List.find?, not_le.2 h0, not_le.2 (h0.trans (by norm_num : (0.0:ℚ) < 0.2)),
      not_le.2 (h0.trans (by norm_num : (0.0:ℚ) < 0.4)),
      not_le.2 (h0.trans (by norm_num : (0.0:ℚ) < 0.6)),
      not_le.2 (h0.trans (by norm_num : (0.0:ℚ) < 0.8))]

theorem mapIdx_get? {α β : Type} (f : ℕ → α → β) (l : List α) (i : ℕ) :
    (l.mapIdx f).get? i = (l.get? i).map (f i) := by
  rcases Nat.lt_or_ge i l.length with h | h
  · have h' : i < (l.mapIdx f).length := by
      rw [List.length_mapIdx]; exact h
    rw [List.get?_eq_get h, List.get?_eq_get h']
    rw [List.get_mapIdx l f i h]
    rfl
  · rw [List.get?_eq_none.2 h, List.get?_eq_none.2 (by rw [List.length_mapIdx]; exact h)]
    rfl

/-- C2: for every confidence `c` in `[0,1]`, the confidence classifier — which
scans the 5 tiers in descending threshold order (0.8, 0.6, 0.4, 0.2, 0.0) —
returns exactly one tier of the table, that tier satisfies
`tier.threshold ≤ c`, and no tier with a strictly higher threshold also
satisfies `threshold ≤ c` (the highest qualifying threshold wins). -/
theorem classifyConfidence_correct (c : ℚ) (h0 : 0 ≤ c) (h1 : c ≤ 1) :
    classifyConfidence c ∈ confidenceLevels ∧
    (classifyConfidence c).threshold ≤ c ∧
    ∀ t ∈ confidenceLevels, t.threshold ≤ c →
      t.threshold ≤ (classifyConfidence c).threshold := by
  rcases le_or_lt 0.8 c with h5 | h5
  · rw [classifyConfidence_eq_tier5 h5]
    refine ⟨by simp [confidenceLevels], h5, ?_⟩
    intro t ht htc
    fin_cases ht <;> simp_all <;> linarith
  rcases le_or_lt 0.6 c with h4 | h4
  · rw [classifyConfidence_eq_tier4 h4 h5]
    refine ⟨by simp [confidenceLevels], h4, ?_⟩
    intro t ht htc
    fin_cases ht <;> simp_all <;> linarith
  rcases le_or_lt 0.4 c with h3 | h3
  · rw [classifyConfidence_eq_tier3 h3 h4]
    refine ⟨by simp [confidenceLevels], h3, ?_⟩
    intro t ht htc
    fin_cases ht <;> simp_all <;> linarith
  rcases le_or_lt 0.2 c with h2 | h2
  · rw [classifyConfidence_eq_tier2 h2 h3]
    refine ⟨by simp [confidenceLevels], h2, ?_⟩
    intro t ht htc
    fin_cases ht <;> simp_all <;> linarith
  · rw [classifyConfidence_eq_tier1 h2]
    refine ⟨by simp [confidenceLevels], by norm_num; exact h0, ?_⟩
    intro t ht htc
    fin_cases ht <;> simp_all <;> linarith

/-- C2 witness: at `c = 0.5` the classifier returns a tier of the table whose
threshold is at most `0.5`. -/
theorem classifyConfidence_correct_witness :
    classifyConfidence 0.5 ∈ confidenceLevels ∧
    (classifyConfidence 0.5).threshold ≤ 0.5 :=
  ⟨(classifyConfidence_correct 0.5 (by norm_num) (by norm_num)).1,
   (classifyConfidence_correct 0.5 (by norm_num) (by norm_num)).2.1⟩

/-- C7 counterexample: the claim says the classifier fails with `DomainError`
for every confidence outside `[0,1]`; in the code there is no failure path at
all — at confidence `2` it returns tier 5 and at `-1` it returns the
`|| confidenceLevels[length-1]` fallback, tier 1. -/
theorem classifyConfidence_no_domain_error :
    classifyConfidence 2 =
      ⟨5, 0.8, "Très haute confiance", "Utilisation automatique recommandée"⟩ ∧
    classifyConfidence (-1) =
      ⟨1, 0.0, "Très faible confiance", "Analyse approfondie requise"⟩ :=
  ⟨classifyConfidence_eq_tier5 (by norm_num),
   classifyConfidence_eq_tier1 (by norm_num)⟩

/-- C7 (amended): the confidence classifier never fails for any confidence —
tier 1 with threshold 0.0 is the fallback — and on inputs outside `[0,1]` it
does not fail with a `DomainError` (no such check exists): for `c > 1` it
returns tier 5, for `c < 0` the fallback tier 1. -/
theorem classifyConfidence_total (c : ℚ) :
    classifyConfidence c ∈ confidenceLevels ∧
    (1 < c → (classifyConfidence c).level = 5) ∧
    (c < 0 → (classifyConfidence c).level = 1) := by
  refine ⟨?_, ?_, ?_⟩
  · rcases le_or_lt 0.8 c with h5 | h5
    · rw [classifyConfidence_eq_tier5 h5]; simp [confidenceLevels]
    rcases le_or_lt 0.6 c with h4 | h4
    · rw [classifyConfidence_eq_tier4 h4 h5]; simp [confidenceLevels]
    rcases le_or_lt 0.4 c with h3 | h3
    · rw [classifyConfidence_eq_tier3 h3 h4]; simp [confidenceLevels]
    rcases le_or_lt 0.2 c with h2 | h2
    · rw [classifyConfidence_eq_tier2 h2 h3]; simp [confidenceLevels]
    · rw [classifyConfidence_eq_tier1 h2]; simp [confidenceLevels]
  · intro hc
    rw [classifyConfidence_eq_tier5 (by linarith)]
  · intro hc
    rw [classifyConfidence_eq_tier1 (by linarith)]

/-- C7 witness: at the out-of-range confidences `2` and `-1` the amended
statement yields tier levels 5 and 1 respectively. -/
theorem classifyConfidence_total_witness :
    (classifyConfidence 2).level = 5 ∧ (classifyConfidence (-1)).level = 1 :=
  ⟨(classifyConfidence_total 2).2.1 (by norm_num),
   (classifyConfidence_total (-1)).2.2 (by norm_num)⟩

theorem predict_class_eq (f : FeatureVector) (d : PredictDraws) :
    (predict f d).predicted_class = predictedClass f := rfl

theorem predict_conf_eq (f : FeatureVector) (d : PredictDraws) :
    (predict f d).confidence = round3 (rawConfidence f d.rc) := rfl

theorem predict_level_eq (f : FeatureVector) (d : PredictDraws) :
    (predict f d).confidence_level = (classifyConfidence (rawConfidence f d.rc)).level := rfl

theorem probabilities_at_class (f : FeatureVector) (d : PredictDraws) :
    (predict f d).probabilities (predictedClass f) = rawConfidence f d.rc := by
  show (if predictedClass f = predictedClass f then rawConfidence f d.rc else _) = _
  rw [if_pos rfl]

/-- C1: with the confidence draw in `[0,1)`, `predict` follows the
three-branch decision policy: `ndvi > 0.8` and `evi > 0.9` gives `Forêt`
with confidence in `[0.85, 0.95]`; `ndvi > 0.8` and `evi ≤ 0.9` gives
`Palmier à huile` with confidence in `[0.75, 0.90]`; `0.6 < ndvi ≤ 0.8`
gives `Palmier à huile` with confidence in `[0.70, 0.90]` when
`savi > 0.7` and `Cacao` with confidence in `[0.65, 0.90]` otherwise;
`ndvi ≤ 0.6` gives `Cacao` with confidence in `[0.45, 0.75]`. -/
theorem predict_branch_policy (f : FeatureVector) (d : PredictDraws)
    (hr0 : 0 ≤ d.rc) (hr1 : d.rc < 1) :
    (f.ndvi > 0.8 → f.evi > 0.9 →
      (predict f d).predicted_class = .foret ∧
      0.85 ≤ (predict f d).confidence ∧ (predict f d).confidence ≤ 0.95) ∧
    (f.ndvi > 0.8 → f.evi ≤ 0.9 →
      (predict f d).predicted_class = .palmier ∧
      0.75 ≤ (predict f d).confidence ∧ (predict f d).confidence ≤ 0.90) ∧
    (0.6 < f.ndvi → f.ndvi ≤ 0.8 → f.savi > 0.7 →
      (predict f d).predicted_class = .palmier ∧
      0.70 ≤ (predict f d).confidence ∧ (predict f d).confidence ≤ 0.90) ∧
    (0.6 < f.ndvi → f.ndvi ≤ 0.8 → f.savi ≤ 0.7 →
      (predict f d).predicted_class = .cacao ∧
      0.65 ≤ (predict f d).confidence ∧ (predict f d).confidence ≤ 0.90) ∧
    (f.ndvi ≤ 0.6 →
      (predict f d).predicted_class = .cacao ∧
      0.45 ≤ (predict f d).confidence ∧ (predict f d).confidence ≤ 0.75) := by
  refine ⟨?_, ?_, ?_, ?_, ?_⟩
  · intro hn he
    have hc : rawConfidence f d.rc = 0.85 + d.rc * 0.1 := by
      simp [rawConfidence, hn, he]
    have hp : predictedClass f = .foret := by
      simp [predictedClass, hn, he]
    refine ⟨by rw [predict_class_eq, hp], ?_, ?_⟩
    · rw [predict_conf_eq, hc]
      exact le_round3_of_le (by linarith) (round3_fixed 850 (by norm_num))
    · rw [predict_conf_eq, hc]
      exact round3_le_of_le (by linarith) (round3_fixed 950 (by norm_num))
  · intro hn he
    have hc : rawConfidence f d.rc = 0.75 + d.rc * 0.15 := by
      simp [rawConfidence, hn, not_lt.2 he]
    have hp : predictedClass f = .palmier := by
      simp [predictedClass, hn, not_lt.2 he]
    refine ⟨by rw [predict_class_eq, hp], ?_, ?_⟩
    · rw [predict_conf_eq, hc]
      exact le_round3_of_le (by linarith) (round3_fixed 750 (by norm_num))
    · rw [predict_conf_eq, hc]
      exact round3_le_of_le (by linarith) (round3_fixed 900 (by norm_num))
  · intro h6 h8 hs
    have hc : rawConfidence f d.rc = 0.70 + d.rc * 0.2 := by
      simp [rawConfidence, not_lt.2 h8, h6, hs]
    have hp : predictedClass f = .palmier := by
      simp [predictedClass, not_lt.2 h8, h6, hs]
    refine ⟨by rw [predict_class_eq, hp], ?_, ?_⟩
    · rw [predict_conf_eq, hc]
      exact le_round3_of_le (by linarith) (round3_fixed 700 (by norm_num))
    · rw [predict_conf_eq, hc]
      exact round3_le_of_le (by linarith) (round3_fixed 900 (by norm_num))
  · intro h6 h8 hs
    have hc : rawConfidence f d.rc = 0.65 + d.rc * 0.25 := by
      simp [rawConfidence, not_lt.2 h8, h6, not_lt.2 hs]
    have hp : predictedClass f = .cacao := by
      simp [predictedClass, not_lt.2 h8, h6, not_lt.2 hs]
    refine ⟨by rw [predict_class_eq, hp], ?_, ?_⟩
    · rw [predict_conf_eq, hc]
      exact le_round3_of_le (by linarith) (round3_fixed 650 (by norm_num))
    · rw [predict_conf_eq, hc]
      exact round3_le_of_le (by linarith) (round3_fixed 900 (by norm_num))
  · intro h6
    have hc : rawConfidence f d.rc = 0.45 + d.rc * 0.3 := by
      simp [rawConfidence, not_lt.2 (h6.trans (by norm_num : (0.6:ℚ) ≤ 0.8)), not_lt.2 h6]
    have hp : predictedClass f = .cacao := by
      simp [predictedClass, not_lt.2 (h6.trans (by norm_num : (0.6:ℚ) ≤ 0.8)), not_lt.2 h6]
    refine ⟨by rw [predict_class_eq, hp], ?_, ?_⟩
    · rw [predict_conf_eq, hc]
      exact le_round3_of_le (by linarith) (round3_fixed 450 (by norm_num))
    · rw [predict_conf_eq, hc]
      exact round3_le_of_le (by linarith) (round3_fixed 750 (by norm_num))

/-- C1 witness: the dense-vegetation features `(ndvi, evi, savi) =
(0.85, 0.95, 0.8)` with confidence draw `1/2` yield the label `Forêt`. -/
theorem predict_branch_policy_witness :
    (predict ⟨0.85, 0.95, 0.8, 0, 0, 0, 0, 1⟩ ⟨1/2, 0, 0, 0⟩).predicted_class =
      CropClass.foret :=
  ((predict_branch_policy ⟨0.85, 0.95, 0.8, 0, 0, 0, 0, 1⟩ ⟨1/2, 0, 0, 0⟩
      (by norm_num) (by norm_num)).1 (by norm_num) (by norm_num)).1

/-- C9: for every feature vector and confidence draw in `[0,1)`, the
confidence reported by `predict` lies in `[0.45, 0.95]`, and the resolved
confidence level is always 3, 4 or 5 — tiers 1 and 2 are never assigned. -/
theorem predict_confidence_invariant (f : FeatureVector) (d : PredictDraws)
    (hr0 : 0 ≤ d.rc) (hr1 : d.rc < 1) :
    0.45 ≤ (predict f d).confidence ∧ (predict f d).confidence ≤ 0.95 ∧
    ((predict f d).confidence_level = 3 ∨ (predict f d).confidence_level = 4 ∨
      (predict f d).confidence_level = 5) := by
  have hraw : 0.45 ≤ rawConfidence f d.rc ∧ rawConfidence f d.rc < 0.95 := by
    unfold rawConfidence
    split_ifs <;> constructor <;> linarith
  refine ⟨?_, ?_, ?_⟩
  · rw [predict_conf_eq]
    exact le_round3_of_le hraw.1 (round3_fixed 450 (by norm_num))
  · rw [predict_conf_eq]
    exact round3_le_of_le (le_of_lt hraw.2) (round3_fixed 950 (by norm_num))
  · rw [predict_level_eq]
    rcases le_or_lt 0.8 (rawConfidence f d.rc) with h5 | h5
    · right; right; rw [classifyConfidence_eq_tier5 h5]
    rcases le_or_lt 0.6 (rawConfidence f d.rc) with h4 | h4
    · right; left; rw [classifyConfidence_eq_tier4 h4 h5]
    · left
      rw [classifyConfidence_eq_tier3 (by linarith [hraw.1]) h4]

/-- C9 witness: sparse features `(ndvi = 0.5)` with draw `0` give a reported
confidence of at least `0.45`. -/
theorem predict_confidence_invariant_witness :
    0.45 ≤ (predict ⟨0.5, 0.6, 0.45, 0, 0, 0, 0, 1⟩ ⟨0, 0, 0, 0⟩).confidence :=
  (predict_confidence_invariant ⟨0.5, 0.6, 0.45, 0, 0, 0, 0, 1⟩ ⟨0, 0, 0, 0⟩
    (by norm_num) (by norm_num)).1

/-- C3 counterexample: with sparse features (`ndvi = 0.5`) and confidence
draw `1/7`, the raw confidence is `0.45 + (1/7)·0.3 = 69/140`, stored as-is
in `probabilities` for the winning class, while the `confidence` field is
rounded to 3 decimals (`493/1000`); the two differ, refuting
`probabilities[label] == confidence`. -/
theorem predict_probabilities_ne_confidence :
    (predict ⟨0.5, 0.6, 0.45, 0.2, 0.7, 0.03, 0.05, 1⟩ ⟨1/7, 0, 0, 0⟩).probabilities
        ((predict ⟨0.5, 0.6, 0.45, 0.2, 0.7, 0.03, 0.05, 1⟩ ⟨1/7, 0, 0, 0⟩).predicted_class) ≠
      (predict ⟨0.5, 0.6, 0.45, 0.2, 0.7, 0.03, 0.05, 1⟩ ⟨1/7, 0, 0, 0⟩).confidence := by
  rw [predict_class_eq, probabilities_at_class, predict_conf_eq]
  have hc : rawConfidence ⟨0.5, 0.6, 0.45, 0.2, 0.7, 0.03, 0.05, 1⟩
      (PredictDraws.rc ⟨1/7, 0, 0, 0⟩) = 69 / 140 := by
    norm_num [rawConfidence]
  rw [hc]
  have h3 : round3 (69 / 140) = 493 / 1000 := by
    unfold round3
    have h : round ((1000 : ℚ) * (69 / 140)) = 493 := by
      rw [round_eq]
      have he : (1000 : ℚ) * (69 / 140) + 1 / 2 = 6907 / 14 := by norm_num
      rw [he, Int.floor_eq_iff]
      constructor <;> norm_num
    rw [h]
    norm_num
  rw [h3]
  norm_num

/-- C3 (amended): the probability recorded for the predicted class equals the
*unrounded* confidence, while the outcome's `confidence` field is that value
rounded to 3 decimals — so the two agree exactly when the unrounded
confidence is a multiple of `0.001`, and differ otherwise. -/
theorem predict_probabilities_label (f : FeatureVector) (d : PredictDraws) :
    (predict f d).probabilities ((predict f d).predicted_class) = rawConfidence f d.rc ∧
    (predict f d).confidence = round3 (rawConfidence f d.rc) := by
  constructor
  · show (if predictedClass f = predictedClass f then rawConfidence f d.rc else _) = _
    rw [if_pos rfl]
  · rfl

/-- C8 counterexample: for the feature vector with `ndvi = evi = savi = 5`
(far outside `[-1,1]`), negative std-devs and `area_ha = 0`, `predict` does
not fail with an `InvalidFeatureError` — it returns an ordinary outcome,
`Forêt` at confidence `0.85`. -/
theorem predict_no_invalid_feature_error :
    (predict ⟨5, 5, 5, -1, -1, -1, -1, 0⟩ ⟨0, 0, 0, 0⟩).predicted_class = CropClass.foret ∧
    (predict ⟨5, 5, 5, -1, -1, -1, -1, 0⟩ ⟨0, 0, 0, 0⟩).confidence = 0.85 := by
  constructor
  · rw [predict_class_eq]
    norm_num [predictedClass]
  · show round3 (rawConfidence ⟨5, 5, 5, -1, -1, -1, -1, 0⟩ 0) = 0.85
    have : rawConfidence ⟨5, 5, 5, -1, -1, -1, -1, 0⟩ 0 = 0.85 := by
      simp [rawConfidence]; norm_num
    rw [this]
    exact round3_fixed 850 (by norm_num)

/-- C8 (amended): `predict` performs no domain validation at all — for any
feature vector, including ones with features outside their declared domains
(e.g. `ndvi > 1`), it returns a `PredictionOutcome` via the normal branch
policy instead of failing. -/
theorem predict_total_on_invalid (f : FeatureVector) (d : PredictDraws)
    (h : 1 < f.ndvi) :
    (predict f d).predicted_class = CropClass.foret ∨
      (predict f d).predicted_class = CropClass.palmier := by
  rw [predict_class_eq]
  unfold predictedClass
  rw [if_pos (by linarith : f.ndvi > 0.8)]
  by_cases he : f.evi > 0.9
  · rw [if_pos he]; left; rfl
  · rw [if_neg he]; right; rfl

/-- C8 witness: the out-of-domain vector with every index equal to 5 still
gets a label from the dense-vegetation branch. -/
theorem predict_total_on_invalid_witness :
    (predict ⟨5, 5, 5, 0, 0, 0, 0, 1⟩ ⟨0, 0, 0, 0⟩).predicted_class = CropClass.foret ∨
      (predict ⟨5, 5, 5, 0, 0, 0, 0, 1⟩ ⟨0, 0, 0, 0⟩).predicted_class = CropClass.palmier :=
  predict_total_on_invalid ⟨5, 5, 5, 0, 0, 0, 0, 1⟩ ⟨0, 0, 0, 0⟩ (by norm_num)

/-- C10: for an NDVI draw in `[0,1)`, `extractFeatures` yields
`ndvi = round3(raw)`, `evi = round3(raw·1.2)` and `savi = round3(raw·0.9)`
for the same raw NDVI in `[0.65, 0.95)`; hence the stored `ndvi` lies in
`[0.65, 0.95]` and exceeds `0.6` (the sparse branch of `predict` is
unreachable), and whenever `ndvi > 0.8` the stored `evi` exceeds `0.9`, so
`predict` returns `Forêt` on every extracted vector with `ndvi > 0.8`. -/
theorem extractFeatures_spec (d : ExtractDraws) (pd : PredictDraws)
    (h0 : 0 ≤ d.rNdvi) (h1 : d.rNdvi < 1) :
    (extractFeatures d).ndvi = round3 (calculateNDVI d.rNdvi) ∧
    (extractFeatures d).evi = round3 (calculateNDVI d.rNdvi * 1.2) ∧
    (extractFeatures d).savi = round3 (calculateNDVI d.rNdvi * 0.9) ∧
    0.65 ≤ (extractFeatures d).ndvi ∧ (extractFeatures d).ndvi ≤ 0.95 ∧
    0.6 < (extractFeatures d).ndvi ∧
    ((extractFeatures d).ndvi > 0.8 → (extractFeatures d).evi > 0.9) ∧
    ((extractFeatures d).ndvi > 0.8 →
      (predict (extractFeatures d) pd).predicted_class = CropClass.foret) := by
  have e1 : (extractFeatures d).ndvi = round3 (calculateNDVI d.rNdvi) := rfl
  have e2 : (extractFeatures d).evi = round3 (calculateNDVI d.rNdvi * 1.2) := rfl
  have e3 : (extractFeatures d).savi = round3 (calculateNDVI d.rNdvi * 0.9) := rfl
  have hnd : 0.65 ≤ calculateNDVI d.rNdvi ∧ calculateNDVI d.rNdvi < 0.95 := by
    unfold calculateNDVI
    constructor <;> linarith
  have hlo : 0.65 ≤ (extractFeatures d).ndvi := by
    rw [e1]
    exact le_round3_of_le hnd.1 (round3_fixed 650 (by norm_num))
  have hev : (extractFeatures d).ndvi > 0.8 → (extractFeatures d).evi > 0.9 := by
    intro h8
    rw [e1] at h8
    have h801 : round3 (calculateNDVI d.rNdvi) ≥ 0.8 + 1 / 1000 :=
      round3_gt_of_gt 800 (by norm_num) h8
    have hup := round3_le_add (calculateNDVI d.rNdvi)
    have hnd8 : calculateNDVI d.rNdvi ≥ 0.8005 := by linarith
    have hsub := sub_le_round3 (calculateNDVI d.rNdvi * 1.2)
    rw [e2]
    linarith
  refine ⟨e1, e2, e3, hlo, ?_, by linarith, hev, ?_⟩
  · rw [e1]
    exact round3_le_of_le hnd.2.le (round3_fixed 950 (by norm_num))
  · intro h8
    rw [predict_class_eq]
    unfold predictedClass
    rw [if_pos h8, if_pos (hev h8)]

/-- C10 witness: the NDVI draw `0.9` gives raw NDVI `0.92`, stored `ndvi`
above `0.8`, and `predict` then labels the extracted vector `Forêt`. -/
theorem extractFeatures_spec_witness :
    (predict (extractFeatures ⟨0.9, 0, 0, 0, 0, 0⟩) ⟨0, 0, 0, 0⟩).predicted_class =
      CropClass.foret :=
  (extractFeatures_spec ⟨0.9, 0, 0, 0, 0, 0⟩ ⟨0, 0, 0, 0⟩ (by norm_num)
    (by norm_num)).2.2.2.2.2.2.2 (by
      have e : (extractFeatures ⟨0.9, 0, 0, 0, 0, 0⟩).ndvi =
          round3 (calculateNDVI 0.9) := rfl
      have hv : calculateNDVI (0.9 : ℚ) = 0.92 := by norm_num [calculateNDVI]
      rw [e, hv, round3_fixed 920 (by norm_num)]
      norm_num)

theorem coordOrZero_some (v : ℚ) : coordOrZero (some v) = v := by
  show (if v = 0 then 0 else v) = v
  split_ifs with h
  · exact h.symm
  · rfl

/-- C4: the export handler fails exactly on its two invalid inputs and
otherwise yields one artifact: an empty result list fails with
`EmptyInputError` (before any file is generated); a non-empty list with a
format outside `{csv, geojson, pdf}` fails with `UnsupportedFormatError`
listing `{csv, geojson, pdf}`; a non-empty list with a supported format
fully succeeds with one artifact. -/
theorem exportHandler_spec (format : String) (results : List ClassificationResult)
    (ts : String) :
    (results = [] → exportHandler format results ts = .error .EmptyInputError) ∧
    (results ≠ [] → format ∉ (["csv", "geojson", "pdf"] : List String) →
      exportHandler format results ts =
        .error (.UnsupportedFormatError ["csv", "geojson", "pdf"])) ∧
    (results ≠ [] → format ∈ (["csv", "geojson", "pdf"] : List String) →
      ∃ a : Artifact, exportHandler format results ts = .ok a) := by
  refine ⟨?_, ?_, ?_⟩
  · intro h
    subst h
    rfl
  · intro hne hfmt
    unfold exportHandler
    rw [if_neg (by simpa [List.isEmpty_iff] using hne)]
    simp only [List.mem_cons, List.not_mem_nil, or_false] at hfmt
    push_neg at hfmt
    rw [if_neg hfmt.1, if_neg hfmt.2.1, if_neg hfmt.2.2]
  · intro hne hfmt
    unfold exportHandler
    rw [if_neg (by simpa [List.isEmpty_iff] using hne)]
    simp only [List.mem_cons, List.not_mem_nil, or_false] at hfmt
    rcases hfmt with h | h | h <;> subst h
    · rw [if_pos rfl]
      exact ⟨_, rfl⟩
    · rw [if_neg (by decide), if_pos rfl]
      exact ⟨_, rfl⟩
    · rw [if_neg (by decide), if_neg (by decide), if_pos rfl]
      exact ⟨_, rfl⟩

/-- C4 witness: an empty list fails with `EmptyInputError`; format `xml` on a
non-empty list fails with `UnsupportedFormatError` listing the three allowed
formats; format `csv` on a non-empty list succeeds with an artifact. -/
theorem exportHandler_spec_witness :
    exportHandler "csv" [] "t" = .error .EmptyInputError ∧
    exportHandler "xml" [sampleResult] "t" =
      .error (.UnsupportedFormatError ["csv", "geojson", "pdf"]) ∧
    ∃ a : Artifact, exportHandler "csv" [sampleResult] "t" = .ok a :=
  ⟨(exportHandler_spec "csv" [] "t").1 rfl,
   (exportHandler_spec "xml" [sampleResult] "t").2.1 (by simp) (by decide),
   (exportHandler_spec "csv" [sampleResult] "t").2.2 (by simp) (by decide)⟩

theorem quoteField_head (s : String) : (quoteField s).data.head? = some '"' := by
  simp [quoteField, String.data_append]

/-- C5 counterexample: the claim says every string field of a CSV row is
double-quoted, but the Timestamp column — a string field — is written raw:
for a concrete result its 12th entry is the bare timestamp string, whose
first character is `2`, not the double quote every quoted field starts
with (`quoteField_head`). -/
theorem csv_timestamp_unquoted :
    (csvRow 0 sampleResult).get? 11 = some "2024-01-01T00:00:00.000Z" ∧
    "2024-01-01T00:00:00.000Z".data.head? = some '2' ∧
    ('2' : Char) ≠ '"' :=
  ⟨rfl, rfl, by decide⟩

/-- C5 (amended): for every list of `N` results the CSV consists of one
header row of exactly 12 fixed columns followed by exactly `N` data rows;
row `i` carries the 1-indexed ID `i + 1`; the PredictedClass and
RecommendedAction string fields are double-quoted while the Timestamp
string field is written unquoted; missing optional coordinate fields are
substituted by the empty string. -/
theorem generateCSV_structure (results : List ClassificationResult) :
    generateCSV results =
      String.join ((csvRows results).map fun row => String.intercalate "," row ++ "\n") ∧
    (csvRows results).length = results.length + 1 ∧
    (csvRows results).get? 0 = some csvHeaders ∧
    csvHeaders.length = 12 ∧
    ∀ i r, results.get? i = some r →
      (csvRows results).get? (i + 1) = some (csvRow i r) ∧
      (csvRow i r).length = 12 ∧
      (csvRow i r).get? 0 = some (toString (i + 1)) ∧
      (csvRow i r).get? 1 = some (quoteField (className r.prediction.predicted_class)) ∧
      (csvRow i r).get? 4 = some (quoteField r.prediction.recommended_action) ∧
      (csvRow i r).get? 11 = some r.metadata.timestamp ∧
      (r.coordinates = none →
        (csvRow i r).get? 9 = some "" ∧ (csvRow i r).get? 10 = some "") := by
  refine ⟨rfl, ?_, rfl, rfl, ?_⟩
  · simp [csvRows, List.length_mapIdx]
  · intro i r hr
    have hm : (results.mapIdx csvRow).get? i = some (csvRow i r) := by
      rw [mapIdx_get?, hr]
      rfl
    refine ⟨by simpa [csvRows] using hm, rfl, rfl, rfl, rfl, rfl, ?_⟩
    intro hc
    constructor
    · rw [show (csvRow i r).get? 9 =
          some (coordFieldStr (r.coordinates.map Coordinates.lat)) from rfl, hc]
      rfl
    · rw [show (csvRow i r).get? 10 =
          some (coordFieldStr (r.coordinates.map Coordinates.lng)) from rfl, hc]
      rfl

/-- C5 witness: on a one-result list (without coordinates) the second CSV row
is the data row of that result and its Latitude entry is the empty string. -/
theorem generateCSV_structure_witness :
    (csvRows [sampleResult]).get? 1 = some (csvRow 0 sampleResult) ∧
    (csvRow 0 sampleResult).get? 9 = some "" :=
  ⟨((generateCSV_structure [sampleResult]).2.2.2.2 0 sampleResult rfl).1,
   (((generateCSV_structure [sampleResult]).2.2.2.2 0 sampleResult rfl).2.2.2.2.2.2 rfl).1⟩

/-- C6: for every list of `N` results, `generateGeoJSON` produces a
`FeatureCollection` with exactly `N` entries of type `Feature`, each with
geometry type `Point` and coordinates of length 2 in `[lng, lat]` order,
substituting 0 for each absent coordinate. -/
theorem generateGeoJSON_structure (results : List ClassificationResult) :
    (generateGeoJSON results).type = "FeatureCollection" ∧
    (generateGeoJSON results).features.length = results.length ∧
    ∀ i r, results.get? i = some r →
      (generateGeoJSON results).features.get? i = some (geoFeature i r) ∧
      (geoFeature i r).type = "Feature" ∧
      (geoFeature i r).geometry.type = "Point" ∧
      (geoFeature i r).geometry.coordinates.length = 2 ∧
      (r.coordinates = none → (geoFeature i r).geometry.coordinates = [0, 0]) ∧
      ∀ c, r.coordinates = some c →
        (geoFeature i r).geometry.coordinates = [c.lng, c.lat] := by
  refine ⟨rfl, ?_, ?_⟩
  · simp [generateGeoJSON, List.length_mapIdx]
  · intro i r hr
    refine ⟨?_, rfl, rfl, rfl, ?_, ?_⟩
    · show (results.mapIdx geoFeature).get? i = some (geoFeature i r)
      rw [mapIdx_get?, hr]
      rfl
    · intro hc
      show [coordOrZero (r.coordinates.map Coordinates.lng),
            coordOrZero (r.coordinates.map Coordinates.lat)] = [0, 0]
      rw [hc]
      rfl
    · intro c hc
      show [coordOrZero (r.coordinates.map Coordinates.lng),
            coordOrZero (r.coordinates.map Coordinates.lat)] = [c.lng, c.lat]
      rw [hc]
      simp [coordOrZero_some]

/-- C6 witness: on a one-result list with coordinates `(lat, lng) =
(5.35, -4.02)`, feature 0 is that result's feature, with point coordinates
`[lng, lat]`. -/
theorem generateGeoJSON_structure_witness :
    (generateGeoJSON [sampleResultWithCoords]).features.get? 0 =
      some (geoFeature 0 sampleResultWithCoords) ∧
    (geoFeature 0 sampleResultWithCoords).geometry.coordinates.length = 2 :=
  ⟨((generateGeoJSON_structure [sampleResultWithCoords]).2.2 0 sampleResultWithCoords rfl).1,
   ((generateGeoJSON_structure [sampleResultWithCoords]).2.2 0 sampleResultWithCoords
      rfl).2.2.2.1⟩

end Classify
